import Mathlib

/-
Verification development for the aws-ec2-runtime-checker repository.

The definitions below are a shallow embedding of internal/checker/checker.go
(and of Go's path/filepath.Match, which matchesTarget calls).  Conventions:

* Go pointers that may be nil (`*string`, `*time.Time`) are `Option`.
* A Go nil-pointer dereference (panic) is `Except.error ()`; code that cannot
  panic returns `Except.ok`.
* Instants and durations are integer nanoseconds (Go stores time.Duration as
  int64 nanoseconds); `time.Since(launchTime)` is `now - launchTime` for an
  explicit `now` parameter.  `Duration.Hours()` and the float64 threshold
  `MaxRuntimeHours` are modelled as exact rationals; the comparison
  `runtime.Hours() > target.MaxRuntimeHours` becomes the exact `>` on ℚ.
* Go maps are modelled as association lists in insertion order (map iteration
  order is irrelevant to every property proved here: tag requirements are a
  conjunction, and tag filters are keyed by distinct names).
* The EC2 DescribeInstances paginator is a list of page results, each page
  either a retrieval error or a list of reservations (lists of instances).
* The TerminateInstances call is an oracle `termErr : String → Option String`
  giving, per instance id, the error of the call (`none` = success).
* slog output and the strings.Builder report are materialised as lists of
  `LogEntry` / `ReportEntry` values; `renderEntry` reproduces the exact
  strings the Go code writes into the builder.
-/

namespace EC2Checker

/-- An EC2 tag (aws-sdk types.Tag): both fields are nullable pointers. -/
structure Tag where
  key : Option String
  value : Option String
deriving DecidableEq, Repr

/-- The fields of aws-sdk types.Instance that checker.go reads.
`instanceId` and `launchTime` are nullable pointers in the SDK. -/
structure Instance where
  instanceId : Option String
  instanceType : String
  launchTime : Option Int
  tags : List Tag
deriving DecidableEq, Repr

/-- config.Target: one policy record. -/
structure Target where
  instanceType : String
  name : String
  tags : List (String × String)
  maxRuntimeHours : ℚ
deriving DecidableEq, Repr

/-- The fields of config.Config that checker.go reads. -/
structure Config where
  targets : List Target
  vpcID : String
  dryRun : Bool
  snsTopicArn : String
deriving DecidableEq, Repr

/-- time.Duration.Hours() for a duration of `d` nanoseconds, as an exact
rational (an hour is 3.6e12 nanoseconds). -/
def durationHours (d : Int) : ℚ := (d : ℚ) / 3600000000000

/- ---------------------------------------------------------------------
Go path/filepath.Match (match.go, GOOS ≠ windows), over rune lists.
Loop-shaped Go code is embedded as fueled recursion; every fuel argument
passed below strictly exceeds the possible number of loop iterations
(each iteration consumes at least one pattern character), so the
out-of-fuel branch `.error ()` is unreachable for the supplied fuel.
`Except.error ()` otherwise models ErrBadPattern.
--------------------------------------------------------------------- -/

/-- scanChunk's leading loop: strip `*`s, reporting whether any was seen. -/
def dropStars : List Char → Bool × List Char
  | [] => (false, [])
  | c :: rest =>
    if c = '*' then (true, (dropStars rest).2) else (false, c :: rest)

/-- scanChunk's scan loop: split off the segment up to the next top-level
(not-in-range) `*`.  A `\` takes the following character verbatim. -/
def scanBody (inrange : Bool) : List Char → List Char × List Char
  | [] => ([], [])
  | c :: rest =>
    if c = '\\' then
      match rest with
      | [] => (['\\'], [])
      | d :: rest2 =>
        let p := scanBody inrange rest2
        (c :: d :: p.1, p.2)
    else if c = '[' then
      let p := scanBody true rest
      (c :: p.1, p.2)
    else if c = ']' then
      let p := scanBody false rest
      (c :: p.1, p.2)
    else if c = '*' then
      if inrange then
        let p := scanBody inrange rest
        (c :: p.1, p.2)
      else ([], c :: rest)
    else
      let p := scanBody inrange rest
      (c :: p.1, p.2)

/-- scanChunk: gets the next segment of pattern, a star prefix plus a chunk. -/
def scanChunk (pattern : List Char) : Bool × List Char × List Char :=
  let s := dropStars pattern
  let p := scanBody false s.2
  (s.1, p.1, p.2)

/-- getEsc: gets a possibly-escaped character from a range of a class. -/
def getEsc : List Char → Except Unit (Char × List Char)
  | [] => .error ()
  | c :: rest =>
    if c = '-' || c = ']' then .error ()
    else if c = '\\' then
      match rest with
      | [] => .error ()
      | d :: rest2 => if rest2.isEmpty then .error () else .ok (d, rest2)
    else if rest.isEmpty then .error () else .ok (c, rest)

/-- matchChunk's range-parsing loop for a character class `[...]`:
`r` is the rune being tested, `mtch` the match found so far,
`nrange` the number of ranges consumed. -/
def parseRanges (r : Char) : Nat → Nat → Bool → List Char → Except Unit (Bool × List Char)
  | 0, _, _, _ => .error ()
  | _fuel+1, nrange, mtch, ']' :: rest =>
    if nrange > 0 then .ok (mtch, rest)
    else .error ()
  | fuel+1, nrange, mtch, chunk =>
    match getEsc chunk with
    | .error _ => .error ()
    | .ok (lo, chunk1) =>
      match chunk1 with
      | '-' :: chunk2 =>
        match getEsc chunk2 with
        | .error _ => .error ()
        | .ok (hi, chunk3) =>
          parseRanges r fuel (nrange + 1) (mtch || (decide (lo ≤ r) && decide (r ≤ hi))) chunk3
      | _ =>
        parseRanges r fuel (nrange + 1) (mtch || (decide (lo ≤ r) && decide (r ≤ lo))) chunk1

/-- matchChunk's main loop.  `failed` records whether the match has failed but
scanning continues for error detection.  Returns the rest of `s` and whether
the chunk matched a prefix of `s`. -/
def matchChunkLoop : Nat → Bool → List Char → List Char → Except Unit (List Char × Bool)
  | 0, _, _, _ => .error ()
  | _fuel+1, failed, [], s => if failed then .ok ([], false) else .ok (s, true)
  | fuel+1, failed0, c :: chunkRest, s =>
    let failed := failed0 || s.isEmpty
    if c = '[' then
      let r : Char := if failed then Char.ofNat 0 else s.headD (Char.ofNat 0)
      let s1 : List Char := if failed then s else s.tail
      let nc : Bool × List Char :=
        match chunkRest with
        | '^' :: t => (true, t)
        | _ => (false, chunkRest)
      match parseRanges r (nc.2.length + 1) 0 false nc.2 with
      | .error _ => .error ()
      | .ok (mtch, chunk2) =>
        matchChunkLoop fuel (failed || (mtch == nc.1)) chunk2 s1
    else if c = '?' then
      if failed then matchChunkLoop fuel failed chunkRest s
      else matchChunkLoop fuel (s.headD (Char.ofNat 0) == '/') chunkRest s.tail
    else if c = '\\' then
      match chunkRest with
      | [] => .error ()
      | d :: chunkRest2 =>
        if failed then matchChunkLoop fuel failed chunkRest2 s
        else matchChunkLoop fuel (d != s.headD (Char.ofNat 0)) chunkRest2 s.tail
    else
      if failed then matchChunkLoop fuel failed chunkRest s
      else matchChunkLoop fuel (c != s.headD (Char.ofNat 0)) chunkRest s.tail

/-- matchChunk: matches the beginning of `s` against chunk (no `*`s in it). -/
def matchChunk (chunk s : List Char) : Except Unit (List Char × Bool) :=
  matchChunkLoop (chunk.length + 1) false chunk s

/-- Match's trailing loop: before returning a no-error false, check the rest
of the pattern for syntax errors against the empty name. -/
def checkRemainder : Nat → List Char → Except Unit Bool
  | 0, _ => .error ()
  | _fuel+1, [] => .ok false
  | fuel+1, pattern =>
    let t := scanChunk pattern
    match matchChunk t.2.1 [] with
    | .error _ => .error ()
    | .ok _ => checkRemainder fuel t.2.2

/-- The star-skip loop inside Match: try the chunk at successive positions of
the name (never skipping a `/`).  Returns the rest of the name on a usable
match, `none` if the loop exhausts. -/
def starSearch (chunk rest : List Char) : List Char → Except Unit (Option (List Char))
  | [] => .ok none
  | c :: nameRest =>
    if c = '/' then .ok none
    else
      match matchChunk chunk nameRest with
      | .error _ => .error ()
      | .ok (t, ok) =>
        if ok then
          if rest.isEmpty && !t.isEmpty then starSearch chunk rest nameRest
          else .ok (some t)
        else starSearch chunk rest nameRest

/-- Match's Pattern loop. -/
def goMatchLoop : Nat → List Char → List Char → Except Unit Bool
  | 0, _, _ => .error ()
  | fuel+1, pattern, name =>
    if pattern.isEmpty then .ok name.isEmpty
    else
      let t := scanChunk pattern
      let star := t.1
      let chunk := t.2.1
      let rest := t.2.2
      if star && chunk.isEmpty then .ok (!(name.contains '/'))
      else
        match matchChunk chunk name with
        | .error _ => .error ()
        | .ok (t1, ok) =>
          if ok && (t1.isEmpty || !rest.isEmpty) then goMatchLoop fuel rest t1
          else if star then
            match starSearch chunk rest name with
            | .error _ => .error ()
            | .ok (some t2) => goMatchLoop fuel rest t2
            | .ok none => checkRemainder (rest.length + 1) rest
          else checkRemainder (rest.length + 1) rest

/-- filepath.Match(pattern, name): `.error ()` is ErrBadPattern. -/
def filepathMatch (pattern name : String) : Except Unit Bool :=
  goMatchLoop (pattern.toList.length + 1) pattern.toList name.toList

/- ---------------------------------------------------------------------
internal/checker/checker.go
--------------------------------------------------------------------- -/

/-- getInstanceName: the value of the instance's "Name" tag, or "". -/
def getInstanceName (inst : Instance) : String :=
  (inst.tags.findSome? fun t =>
    match t.key, t.value with
    | some k, some v => if k = "Name" then some v else none
    | _, _ => none).getD ""

/-- The instanceTags map built inside matchesTarget (tags with a nil key or
value are skipped; a later duplicate key overwrites; a missing key reads as
the Go zero value ""). -/
def buildInstanceTags (tags : List Tag) : String → String :=
  tags.foldl
    (fun m t =>
      match t.key, t.value with
      | some k, some v => fun x => if x = k then v else m x
      | _, _ => m)
    (fun _ => "")

/-- The tag block of matchesTarget (checker.go lines 229-242): if the target
specifies tags, every required key must read back the required value. -/
def tagsSatisfied (itags : List Tag) (reqs : List (String × String)) : Bool :=
  if reqs.length > 0 then
    reqs.all fun kv => buildInstanceTags itags kv.1 == kv.2
  else true

/-- matchesTarget: instance-type check, then Name-tag glob via
filepath.Match (error or non-match fails), then the tag conjunction. -/
def matchesTarget (inst : Instance) (target : Target) : Bool :=
  if target.instanceType != "" && inst.instanceType != target.instanceType then
    false
  else if target.name != "" &&
      (match filepathMatch target.name (getInstanceName inst) with
        | .error _ => true
        | .ok m => !m) then
    false
  else
    tagsSatisfied inst.tags target.tags

/-- The target loop of checkInstanceRuntime.  On the first matching target the
code dereferences `*instance.LaunchTime` unconditionally — a nil launch time
is `Except.error ()` (nil-pointer panic) — then applies the strict `>`
threshold and stops (break). -/
def checkRuntimeLoop (now : Int) (inst : Instance) : List Target → Except Unit (Option Instance)
  | [] => .ok none
  | target :: rest =>
    if matchesTarget inst target then
      match inst.launchTime with
      | none => .error ()
      | some lt =>
        if durationHours (now - lt) > target.maxRuntimeHours then .ok (some inst)
        else .ok none
    else checkRuntimeLoop now inst rest

/-- checkInstanceRuntime (checker.go lines 137-151). -/
def checkInstanceRuntime (now : Int) (targets : List Target) (inst : Instance) :
    Except Unit (Option Instance) :=
  checkRuntimeLoop now inst targets

/-- A provider-side filter clause (aws-sdk types.Filter). -/
structure Filter where
  name : String
  values : List String
deriving DecidableEq, Repr

/-- buildFilters' instance-type collection loop: the non-empty InstanceType
values, in target order, duplicates retained. -/
def collectInstanceTypes (targets : List Target) : List String :=
  targets.foldl (fun acc t => if t.instanceType != "" then acc ++ [t.instanceType] else acc) []

/-- One step of buildFilters' tagFilters map: append `v` to the entry for key
`k`, creating the entry if absent (Go: `tagFilters[tagKey] = append(...)`). -/
def addTagValue (acc : List (String × List String)) (k v : String) : List (String × List String) :=
  if acc.any (fun p => p.1 == k) then
    acc.map fun p => if p.1 == k then (p.1, p.2 ++ [v]) else p
  else acc ++ [(k, [v])]

/-- Fold one target's tag requirements into the tagFilters map. -/
def addTargetTags (acc : List (String × List String)) (tags : List (String × String)) :
    List (String × List String) :=
  tags.foldl (fun a kv => addTagValue a ("tag:" ++ kv.1) kv.2) acc

/-- buildFilters' tagFilters map, as an association list in insertion order. -/
def buildTagFilters (targets : List Target) : List (String × List String) :=
  targets.foldl (fun acc t => addTargetTags acc t.tags) []

/-- buildFilters (checker.go lines 56-105): always the running-state clause;
an instance-type clause when the collected type list is non-empty; a vpc-id
clause when configured; one clause per distinct required tag key. -/
def buildFilters (cfg : Config) : List Filter :=
  let filters0 := [Filter.mk "instance-state-name" ["running"]]
  let instanceTypes := collectInstanceTypes cfg.targets
  let filters1 :=
    if instanceTypes.length > 0 then filters0 ++ [Filter.mk "instance-type" instanceTypes]
    else filters0
  let filters2 :=
    if cfg.vpcID != "" then filters1 ++ [Filter.mk "vpc-id" [cfg.vpcID]]
    else filters1
  filters2 ++ (buildTagFilters cfg.targets).map fun kv => Filter.mk kv.1 kv.2

/-- A strings.Builder write made by processInstances / terminateInstance. -/
inductive ReportEntry
  | header (n : Nat)
  | instanceLine (id : String) (instanceType : String) (hours : ℚ)
  | termFailure (id : String) (err : String)
  | termSuccess (id : String)
deriving DecidableEq, Repr

/-- An slog line emitted by processInstances / terminateInstance. -/
inductive LogEntry
  | foundLongRunning (id : String)
  | terminating (id : String)
  | terminateFailed (id : String)
  | terminateSucceeded (id : String)
  | dryRunWouldTerminate (id : String)
deriving DecidableEq, Repr

/-- Decimal rendering of the hours value to two places (Go's `%.2f`); agrees
with Go on the exactly-representable values exercised here. -/
def format2f (q : ℚ) : String :=
  let cents : Int := round (q * 100)
  let sign := if cents < 0 then "-" else ""
  let a := cents.natAbs
  let frac := a % 100
  sign ++ toString (a / 100) ++ "." ++ (if frac < 10 then "0" else "") ++ toString frac

/-- The exact string each ReportEntry contributes to the message builder. -/
def renderEntry : ReportEntry → String
  | .header n => "Found " ++ toString n ++ " long-running instances:\n"
  | .instanceLine id ty hours =>
      "- ID: " ++ id ++ ", Type: " ++ ty ++ ", Runtime: " ++ format2f hours ++ " hours\n"
  | .termFailure id err => "Failed to terminate instance " ++ id ++ ": " ++ err ++ "\n"
  | .termSuccess id => "Successfully terminated instance " ++ id ++ "\n"

/-- messageBuilder.String(): the concatenation of all writes. -/
def renderReport (entries : List ReportEntry) : String :=
  String.join (entries.map renderEntry)

/-- terminateInstance (checker.go lines 178-192): one TerminateInstances call
for the single id; the failure or success line is appended to the builder.
Result: (builder writes, TerminateInstances calls, log lines). -/
def terminateInstance (termErr : String → Option String) (id : String) :
    List ReportEntry × List String × List LogEntry :=
  match termErr id with
  | some err =>
      ([ReportEntry.termFailure id err], [id],
       [LogEntry.terminating id, LogEntry.terminateFailed id])
  | none =>
      ([ReportEntry.termSuccess id], [id],
       [LogEntry.terminating id, LogEntry.terminateSucceeded id])

/-- The body of processInstances' loop for one instance: dereferences
`*instance.InstanceId` and `*instance.LaunchTime` (nil is a panic), writes the
instance line, then terminates or logs the dry-run line. -/
def processOneInstance (now : Int) (dryRun : Bool) (termErr : String → Option String)
    (inst : Instance) : Except Unit (List ReportEntry × List String × List LogEntry) :=
  match inst.instanceId, inst.launchTime with
  | some id, some lt =>
    let hours := durationHours (now - lt)
    let line := ReportEntry.instanceLine id inst.instanceType hours
    if !dryRun then
      let t := terminateInstance termErr id
      .ok (line :: t.1, t.2.1, LogEntry.foundLongRunning id :: t.2.2)
    else
      .ok ([line], [], [LogEntry.foundLongRunning id, LogEntry.dryRunWouldTerminate id])
  | _, _ => .error ()

/-- processInstances' loop over the violating instances, in order; a panic
aborts the remainder. -/
def processLoop (now : Int) (dryRun : Bool) (termErr : String → Option String) :
    List Instance → Except Unit (List ReportEntry × List String × List LogEntry)
  | [] => .ok ([], [], [])
  | inst :: rest =>
    match processOneInstance now dryRun termErr inst with
    | .error e => .error e
    | .ok (es, cs, ls) =>
      match processLoop now dryRun termErr rest with
      | .error e => .error e
      | .ok (es1, cs1, ls1) => .ok (es ++ es1, cs ++ cs1, ls ++ ls1)

/-- processInstances (checker.go lines 154-175): header first, then the loop.
Result: (report writes, TerminateInstances calls, log lines). -/
def processInstances (now : Int) (dryRun : Bool) (termErr : String → Option String)
    (instances : List Instance) :
    Except Unit (List ReportEntry × List String × List LogEntry) :=
  match processLoop now dryRun termErr instances with
  | .error e => .error e
  | .ok (es, cs, ls) => .ok (ReportEntry.header instances.length :: es, cs, ls)

/-- One DescribeInstances page: a retrieval error, or reservations each
holding instances. -/
abbrev PageResult := Except Unit (List (List Instance))

/-- The per-page reservation/instance double loop of findLongRunningInstances
(over the flattened instances of a page), threading the accumulator;
a checkInstanceRuntime panic propagates. -/
def checkReservations (now : Int) (targets : List Target) (acc : List Instance) :
    List Instance → Except Unit (List Instance)
  | [] => .ok acc
  | inst :: rest =>
    match checkInstanceRuntime now targets inst with
    | .error e => .error e
    | .ok none => checkReservations now targets acc rest
    | .ok (some i) => checkReservations now targets (acc ++ [i]) rest

/-- The paginator loop of findLongRunningInstances: a page error is logged and
the whole function returns nil (everything accumulated so far is discarded);
the Bool records that the retrieval-error path was taken. -/
def findLoop (now : Int) (targets : List Target) (acc : List Instance) :
    List PageResult → Except Unit (List Instance × Bool)
  | [] => .ok (acc, false)
  | page :: rest =>
    match page with
    | .error _ => .ok ([], true)
    | .ok reservations =>
      match checkReservations now targets acc reservations.flatten with
      | .error e => .error e
      | .ok acc1 => findLoop now targets acc1 rest

/-- findLongRunningInstances (checker.go lines 108-134). -/
def findLongRunningInstances (now : Int) (cfg : Config) (pages : List PageResult) :
    Except Unit (List Instance × Bool) :=
  findLoop now cfg.targets [] pages

/-- The observable outcome of one RunCheck cycle. -/
structure CycleResult where
  found : List Instance
  retrievalError : Bool
  report : List ReportEntry
  termCalls : List String
  logs : List LogEntry
  notified : Bool
deriving DecidableEq, Repr

/-- RunCheck (checker.go lines 42-53): find, return early when nothing was
found, otherwise process and notify (`notified` is sendNotification's
SNS Publish, skipped when no topic is configured). -/
def runCheck (now : Int) (cfg : Config) (pages : List PageResult)
    (termErr : String → Option String) : Except Unit CycleResult :=
  match findLongRunningInstances now cfg pages with
  | .error e => .error e
  | .ok (found, rerr) =>
    if found.length = 0 then
      .ok (CycleResult.mk found rerr [] [] [] false)
    else
      match processInstances now cfg.dryRun termErr found with
      | .error e => .error e
      | .ok (entries, calls, logs) =>
        .ok (CycleResult.mk found rerr entries calls logs (cfg.snsTopicArn != ""))

/-- Whether every instance on a (successful) page passes checkInstanceRuntime
without a panic; an error page aborts before any instance is touched. -/
def pageNoPanic (now : Int) (targets : List Target) : PageResult → Bool
  | .error _ => true
  | .ok rs => rs.all fun r => r.all fun i =>
      match checkInstanceRuntime now targets i with
      | .error _ => false
      | .ok _ => true

/-- Modelled from the spec: the glob semantics the specification describes for
namePattern — " `*` matches any run of characters and no other wildcard
characters have special meaning" — used only to compare against the code's
filepath.Match.  Fueled; the wrapper below supplies sufficient fuel. -/
def specGlobLoop : Nat → List Char → List Char → Bool
  | 0, _, _ => false
  | fuel+1, pattern, name =>
    match pattern, name with
    | [], n => n.isEmpty
    | '*' :: p, [] => specGlobLoop fuel p []
    | '*' :: p, _ :: nr => specGlobLoop fuel p name || specGlobLoop fuel ('*' :: p) nr
    | _ :: _, [] => false
    | c :: p, d :: nr => c == d && specGlobLoop fuel p nr

/-- Modelled from the spec: star-only glob matching over whole strings. -/
def specGlobMatch (pattern name : String) : Bool :=
  specGlobLoop (pattern.toList.length + name.toList.length + 1) pattern.toList name.toList

/- ---------------------------------------------------------------------
Concrete data reused inside single claims
--------------------------------------------------------------------- -/

/-- The three violations of the C5 partial-failure scenario. -/
def c5insts : List Instance :=
  [Instance.mk (some "i-a") "t2.micro" (some 0) [],
   Instance.mk (some "i-b") "t2.micro" (some 0) [],
   Instance.mk (some "i-c") "t2.micro" (some 0) []]

/-- Termination oracle that fails exactly for the second violation. -/
def c5termErr : String → Option String :=
  fun s => if s = "i-b" then some "api error" else none

/-- The report writes processInstances produces for the C5 scenario. -/
def c5entries : List ReportEntry :=
  ReportEntry.header c5insts.length ::
    (c5insts.map fun i =>
      ReportEntry.instanceLine (i.instanceId.getD "") i.instanceType
          (durationHours (90000000000000 - i.launchTime.getD 0)) ::
        (match c5termErr (i.instanceId.getD "") with
         | some err => [ReportEntry.termFailure (i.instanceId.getD "") err]
         | none => [ReportEntry.termSuccess (i.instanceId.getD "")])).flatten

/-- The log lines processInstances produces for the C5 scenario. -/
def c5logs : List LogEntry :=
  (c5insts.map fun i =>
    LogEntry.foundLongRunning (i.instanceId.getD "") ::
      LogEntry.terminating (i.instanceId.getD "") ::
      (match c5termErr (i.instanceId.getD "") with
       | some _ => [LogEntry.terminateFailed (i.instanceId.getD "")]
       | none => [LogEntry.terminateSucceeded (i.instanceId.getD "")])).flatten

/- ---------------------------------------------------------------------
Helper lemmas
--------------------------------------------------------------------- -/

theorem collectInstanceTypes_aux :
    ∀ (ts : List Target) (acc : List String),
      ts.foldl (fun acc t => if t.instanceType != "" then acc ++ [t.instanceType] else acc)
          acc =
        acc ++ (ts.map Target.instanceType).filter (fun s => s != "") := by
  intro ts
  induction ts with
  | nil => intro acc; simp
  | cons t rest ih =>
    intro acc
    by_cases h : t.instanceType = ""
    · simp only [List.foldl_cons, List.map_cons, List.filter_cons, h]
      simpa using ih acc
    · simp [h]
      simpa using ih (acc ++ [t.instanceType])

/-- The collected instance types are the non-empty InstanceType values. -/
theorem collectInstanceTypes_eq (ts : List Target) :
    collectInstanceTypes ts = (ts.map Target.instanceType).filter (fun s => s != "") := by
  simpa [collectInstanceTypes] using collectInstanceTypes_aux ts []

theorem addTagValue_keys :
    ∀ (acc : List (String × List String)) (k v : String) (p : String × List String),
      p ∈ addTagValue acc k v → p.1 = k ∨ ∃ q ∈ acc, p.1 = q.1 := by
  intro acc k v p hp
  unfold addTagValue at hp
  by_cases h : acc.any (fun q => q.1 == k) = true
  · rw [if_pos h] at hp
    obtain ⟨q, hq, hqe⟩ := List.mem_map.mp hp
    by_cases hqk : (q.1 == k) = true
    · rw [if_pos hqk] at hqe
      cases hqe
      exact Or.inr ⟨q, hq, rfl⟩
    · rw [if_neg hqk] at hqe
      exact Or.inr ⟨q, hq, by rw [hqe]⟩
  · rw [if_neg h] at hp
    rcases List.mem_append.mp hp with h1 | h2
    · exact Or.inr ⟨p, h1, rfl⟩
    · left
      have hp2 : p = (k, [v]) := by simpa using h2
      rw [hp2]

theorem addTargetTags_keys :
    ∀ (tags : List (String × String)) (acc : List (String × List String)),
      (∀ p ∈ acc, ∃ k0, p.1 = "tag:" ++ k0) →
      ∀ p ∈ addTargetTags acc tags, ∃ k0, p.1 = "tag:" ++ k0 := by
  intro tags
  induction tags with
  | nil => intro acc h p hp; exact h p hp
  | cons kv rest ih =>
    intro acc h p hp
    rw [addTargetTags, List.foldl_cons] at hp
    refine ih (addTagValue acc ("tag:" ++ kv.1) kv.2) ?_ p hp
    intro q hq
    rcases addTagValue_keys _ _ _ _ hq with h1 | ⟨r, hr, h2⟩
    · exact ⟨kv.1, h1⟩
    · obtain ⟨k0, hk0⟩ := h r hr
      exact ⟨k0, by rw [h2, hk0]⟩

/-- Every clause of the tagFilters map is named "tag:" followed by a key. -/
theorem buildTagFilters_keys :
    ∀ (targets : List Target) (p : String × List String),
      p ∈ buildTagFilters targets → ∃ k0, p.1 = "tag:" ++ k0 := by
  have aux : ∀ (ts : List Target) (acc : List (String × List String)),
      (∀ p ∈ acc, ∃ k0, p.1 = "tag:" ++ k0) →
      ∀ p ∈ ts.foldl (fun a t => addTargetTags a t.tags) acc, ∃ k0, p.1 = "tag:" ++ k0 := by
    intro ts
    induction ts with
    | nil => intro acc h p hp; exact h p hp
    | cons t rest ih =>
      intro acc h p hp
      rw [List.foldl_cons] at hp
      exact ih (addTargetTags acc t.tags) (addTargetTags_keys t.tags acc h) p hp
  intro targets p hp
  exact aux targets [] (fun q hq => absurd hq (List.not_mem_nil q)) p hp

theorem tag_prefix_ne (k : String) : ("tag:" ++ k) ≠ "instance-type" := by
  intro h
  have h2 : ("tag:" ++ k).data = "instance-type".data := by rw [h]
  have h3 : 't' :: 'a' :: 'g' :: ':' :: k.data =
      ['i', 'n', 's', 't', 'a', 'n', 'c', 'e', '-', 't', 'y', 'p', 'e'] := h2
  exact absurd (List.cons.inj h3).1 (by decide)

/-- Any clause of buildFilters named "instance-type" is the type clause: it
exists only when the collected type list is non-empty and carries exactly
that list. -/
theorem buildFilters_type_values (cfg : Config) (f : Filter) (hf : f ∈ buildFilters cfg)
    (hname : f.name = "instance-type") :
    collectInstanceTypes cfg.targets ≠ [] ∧
      f.values = collectInstanceTypes cfg.targets := by
  simp only [buildFilters] at hf
  rcases List.mem_append.mp hf with h1 | h2
  · by_cases hc1 : (collectInstanceTypes cfg.targets).length > 0
    · rw [if_pos hc1] at h1
      by_cases hc2 : (cfg.vpcID != "") = true
      · rw [if_pos hc2] at h1
        simp only [List.mem_append, List.mem_cons, List.mem_singleton,
          List.not_mem_nil, or_false] at h1
        rcases h1 with (rfl | rfl) | rfl
        · simp at hname
        · exact ⟨List.length_pos.mp hc1, rfl⟩
        · simp at hname
      · rw [if_neg hc2] at h1
        simp only [List.mem_append, List.mem_cons, List.mem_singleton,
          List.not_mem_nil, or_false] at h1
        rcases h1 with rfl | rfl
        · simp at hname
        · exact ⟨List.length_pos.mp hc1, rfl⟩
    · rw [if_neg hc1] at h1
      by_cases hc2 : (cfg.vpcID != "") = true
      · rw [if_pos hc2] at h1
        simp only [List.mem_append, List.mem_cons, List.mem_singleton,
          List.not_mem_nil, or_false] at h1
        rcases h1 with rfl | rfl
        · simp at hname
        · simp at hname
      · rw [if_neg hc2] at h1
        simp only [List.mem_cons, List.not_mem_nil, or_false] at h1
        rw [h1] at hname
        simp at hname
  · obtain ⟨kv, hkv, hfe⟩ := List.mem_map.mp h2
    obtain ⟨k0, hk0⟩ := buildTagFilters_keys cfg.targets kv hkv
    rw [← hfe] at hname
    exact absurd (hk0 ▸ hname) (tag_prefix_ne k0)

/-- When the collected type list is non-empty, the type clause is present. -/
theorem buildFilters_has_type_clause (cfg : Config)
    (h : (collectInstanceTypes cfg.targets).length > 0) :
    Filter.mk "instance-type" (collectInstanceTypes cfg.targets) ∈ buildFilters cfg := by
  simp only [buildFilters]
  rw [if_pos h]
  by_cases hv : (cfg.vpcID != "") = true
  · rw [if_pos hv]
    simp
  · rw [if_neg hv]
    simp

theorem buildInstanceTags_absent_aux :
    ∀ (l : List Tag) (init : String → String) (k : String),
      (∀ t ∈ l, t.key ≠ some k) →
      (l.foldl
        (fun m t =>
          match t.key, t.value with
          | some kk, some v => fun x => if x = kk then v else m x
          | _, _ => m) init) k = init k := by
  intro l
  induction l with
  | nil => intro init k _; rfl
  | cons t rest ih =>
    intro init k h
    have ht := h t (List.mem_cons_self _ _)
    have hrest : ∀ u ∈ rest, u.key ≠ some k := fun u hu => h u (List.mem_cons_of_mem _ hu)
    rw [List.foldl_cons, ih _ k hrest]
    cases hk : t.key with
    | none => rfl
    | some kk =>
      cases hv : t.value with
      | none => rfl
      | some v =>
        have hkk : k ≠ kk := by
          intro he
          exact ht (by rw [hk, he])
        simp [hkk]

/-- Looking up a key that no tag of the instance carries yields the Go map
zero value "". -/
theorem buildInstanceTags_absent (l : List Tag) (k : String)
    (h : ∀ t ∈ l, t.key ≠ some k) : buildInstanceTags l k = "" :=
  buildInstanceTags_absent_aux l (fun _ => "") k h

/-- Appending one tag with key `k` and value `v` updates the lookup at `k`
and leaves every other key unchanged. -/
theorem buildInstanceTags_append_single (l : List Tag) (k v : String) :
    buildInstanceTags (l ++ [Tag.mk (some k) (some v)]) =
      fun x => if x = k then v else buildInstanceTags l x := by
  unfold buildInstanceTags
  rw [List.foldl_append]
  rfl

theorem processLoop_dry (now : Int) (termErr : String → Option String) :
    ∀ (insts : List Instance),
      (∀ i ∈ insts, i.instanceId.isSome = true ∧ i.launchTime.isSome = true) →
      processLoop now true termErr insts =
        .ok (insts.map (fun i => ReportEntry.instanceLine (i.instanceId.getD "")
               i.instanceType (durationHours (now - i.launchTime.getD 0))),
             [],
             (insts.map fun i =>
               [LogEntry.foundLongRunning (i.instanceId.getD ""),
                LogEntry.dryRunWouldTerminate (i.instanceId.getD "")]).flatten) := by
  intro insts h
  induction insts with
  | nil => rfl
  | cons i rest ih =>
    obtain ⟨hid, hlt⟩ := h i (List.mem_cons_self _ _)
    obtain ⟨id, hid2⟩ := Option.isSome_iff_exists.mp hid
    obtain ⟨lt, hlt2⟩ := Option.isSome_iff_exists.mp hlt
    have hrest := ih (fun j hj => h j (List.mem_cons_of_mem _ hj))
    simp [processLoop, processOneInstance, hid2, hlt2, hrest]

theorem processLoop_live (now : Int) (termErr : String → Option String) :
    ∀ (insts : List Instance),
      (∀ i ∈ insts, i.instanceId.isSome = true ∧ i.launchTime.isSome = true) →
      processLoop now false termErr insts =
        .ok ((insts.map fun i =>
                ReportEntry.instanceLine (i.instanceId.getD "") i.instanceType
                    (durationHours (now - i.launchTime.getD 0)) ::
                  (match termErr (i.instanceId.getD "") with
                   | some err => [ReportEntry.termFailure (i.instanceId.getD "") err]
                   | none => [ReportEntry.termSuccess (i.instanceId.getD "")])).flatten,
             insts.map (fun i => i.instanceId.getD ""),
             (insts.map fun i =>
                LogEntry.foundLongRunning (i.instanceId.getD "") ::
                  LogEntry.terminating (i.instanceId.getD "") ::
                  (match termErr (i.instanceId.getD "") with
                   | some _ => [LogEntry.terminateFailed (i.instanceId.getD "")]
                   | none => [LogEntry.terminateSucceeded (i.instanceId.getD "")])).flatten) := by
  intro insts h
  induction insts with
  | nil => rfl
  | cons i rest ih =>
    obtain ⟨hid, hlt⟩ := h i (List.mem_cons_self _ _)
    obtain ⟨id, hid2⟩ := Option.isSome_iff_exists.mp hid
    obtain ⟨lt, hlt2⟩ := Option.isSome_iff_exists.mp hlt
    have hrest := ih (fun j hj => h j (List.mem_cons_of_mem _ hj))
    rcases hterm : termErr id with _ | err <;>
      simp [processLoop, processOneInstance, terminateInstance, hid2, hlt2, hterm, hrest]

theorem checkReservations_ok (now : Int) (tg : List Target) :
    ∀ (l : List Instance) (acc : List Instance),
      (∀ i ∈ l, (match checkInstanceRuntime now tg i with
                  | .error _ => false
                  | .ok _ => true) = true) →
      ∃ acc1, checkReservations now tg acc l = .ok acc1 := by
  intro l
  induction l with
  | nil => exact fun acc _ => ⟨acc, rfl⟩
  | cons i rest ih =>
    intro acc h
    have hi := h i (List.mem_cons_self _ _)
    have hrest := fun j hj => h j (List.mem_cons_of_mem _ hj)
    rcases hc : checkInstanceRuntime now tg i with u | oi
    · rw [hc] at hi; cases hi
    · cases oi with
      | none =>
        obtain ⟨a1, ha⟩ := ih acc hrest
        exact ⟨a1, by simp [checkReservations, hc, ha]⟩
      | some v =>
        obtain ⟨a1, ha⟩ := ih (acc ++ [v]) hrest
        exact ⟨a1, by simp [checkReservations, hc, ha]⟩

theorem findLoop_abort (now : Int) (tg : List Target) (ps2 : List PageResult) :
    ∀ (ps1 : List PageResult) (acc : List Instance),
      (∀ p ∈ ps1, pageNoPanic now tg p = true) →
      findLoop now tg acc (ps1 ++ .error () :: ps2) = .ok ([], true) := by
  intro ps1
  induction ps1 with
  | nil => exact fun acc _ => rfl
  | cons p rest ih =>
    intro acc h
    cases p with
    | error u => rfl
    | ok rs =>
      have hp := h _ (List.mem_cons_self _ _)
      have hall : ∀ i ∈ rs.flatten,
          (match checkInstanceRuntime now tg i with
            | .error _ => false
            | .ok _ => true) = true := by
        simp only [pageNoPanic, List.all_eq_true] at hp
        intro i hi
        obtain ⟨r, hr, hir⟩ := List.mem_flatten.mp hi
        exact hp r hr i hir
      obtain ⟨acc1, hacc⟩ := checkReservations_ok now tg rs.flatten acc hall
      have hrest := fun q hq => h q (List.mem_cons_of_mem _ hq)
      simpa [findLoop, hacc] using ih acc1 hrest

/- ---------------------------------------------------------------------
Claim theorems
--------------------------------------------------------------------- -/

/-- C1: the claim states that an instance with a null launch timestamp is
excluded and logged and never causes a crash.  The code has no nil check:
once any policy matches such an instance, checkInstanceRuntime dereferences
the nil `*instance.LaunchTime`.  At this failing input — launch time nil,
one all-empty policy (which matches every instance) — the evaluation takes
the nil-pointer-panic path instead of excluding the instance. -/
theorem c1_nil_launch_time_panics :
    checkInstanceRuntime 0 [Target.mk "" "" [] 24]
      (Instance.mk (some "i-1") "t2.micro" none []) = .error () := rfl

/-- C8: a policy whose instanceTypeFilter, namePattern and tagRequirements are
all empty satisfies matchesTarget for every instance, whatever its threshold:
all three selector checks are skipped and the function returns true. -/
theorem c8_empty_policy_matches_every_instance :
    ∀ (inst : Instance) (q : ℚ), matchesTarget inst (Target.mk "" "" [] q) = true := by
  intro inst q
  rfl

/-- C3: first-match-wins.  For any ordered policy list split as
`ps1 ++ p :: ps2` where nothing in `ps1` matches the instance and `p` does,
checkInstanceRuntime equals its value on the single-policy list `[p]` — so the
first matching policy's threshold alone decides, and the policies after it are
never consulted.  An instance matching no policy evaluates to `ok none`:
excluded, never a violation. -/
theorem c3_first_match_wins :
    ∀ (now : Int) (inst : Instance),
      (∀ (ps1 : List Target) (p : Target) (ps2 : List Target),
        (∀ q ∈ ps1, matchesTarget inst q = false) → matchesTarget inst p = true →
        checkInstanceRuntime now (ps1 ++ p :: ps2) inst =
          checkInstanceRuntime now [p] inst) ∧
      (∀ ps : List Target, (∀ q ∈ ps, matchesTarget inst q = false) →
        checkInstanceRuntime now ps inst = .ok none) := by
  intro now inst
  constructor
  · intro ps1 p ps2 h1 h2
    induction ps1 with
    | nil => simp [checkInstanceRuntime, checkRuntimeLoop, h2]
    | cons q rest ih =>
      have hq : matchesTarget inst q = false := h1 q (List.mem_cons_self _ _)
      have h1' : ∀ r ∈ rest, matchesTarget inst r = false :=
        fun r hr => h1 r (List.mem_cons_of_mem _ hr)
      simpa [checkInstanceRuntime, checkRuntimeLoop, hq] using ih h1'
  · intro ps h
    induction ps with
    | nil => rfl
    | cons q rest ih =>
      have hq : matchesTarget inst q = false := h q (List.mem_cons_self _ _)
      have h' : ∀ r ∈ rest, matchesTarget inst r = false :=
        fun r hr => h r (List.mem_cons_of_mem _ hr)
      simpa [checkInstanceRuntime, checkRuntimeLoop, hq] using ih h'

/-- Witness for C3: the non-matching first policy (t3.large) is skipped, the
first matching policy (threshold 24h) alone decides, and the later policy that
would also match (threshold 1000000h) is ignored; against the non-matching
policy alone the instance is excluded. -/
theorem c3_first_match_wins_witness :
    checkInstanceRuntime 90000000000000
        [Target.mk "t3.large" "" [] 1, Target.mk "t2.micro" "" [] 24,
         Target.mk "t2.micro" "" [] 1000000]
        (Instance.mk (some "i-3") "t2.micro" (some 0) []) =
      checkInstanceRuntime 90000000000000 [Target.mk "t2.micro" "" [] 24]
        (Instance.mk (some "i-3") "t2.micro" (some 0) []) ∧
    checkInstanceRuntime 90000000000000 [Target.mk "t3.large" "" [] 1]
        (Instance.mk (some "i-3") "t2.micro" (some 0) []) = .ok none :=
  ⟨(c3_first_match_wins 90000000000000 (Instance.mk (some "i-3") "t2.micro" (some 0) [])).1
      [Target.mk "t3.large" "" [] 1] (Target.mk "t2.micro" "" [] 24)
      [Target.mk "t2.micro" "" [] 1000000] (by decide) (by decide),
   (c3_first_match_wins 90000000000000 (Instance.mk (some "i-3") "t2.micro" (some 0) [])).2
      [Target.mk "t3.large" "" [] 1] (by decide)⟩

/-- C6: for an instance with a launch timestamp that a policy matches, the
instance is a violation exactly when `now - launchTime` in hours is strictly
greater than maxRuntimeHours; when the runtime is less than or equal to the
threshold (in particular exactly equal) the instance is not flagged. -/
theorem c6_strict_runtime_threshold :
    ∀ (now lt : Int) (inst : Instance) (tgt : Target),
      inst.launchTime = some lt → matchesTarget inst tgt = true →
      ((checkInstanceRuntime now [tgt] inst = .ok (some inst) ↔
          durationHours (now - lt) > tgt.maxRuntimeHours) ∧
        (durationHours (now - lt) ≤ tgt.maxRuntimeHours →
          checkInstanceRuntime now [tgt] inst = .ok none)) := by
  intro now lt inst tgt hl hm
  have hbase : checkInstanceRuntime now [tgt] inst =
      (if durationHours (now - lt) > tgt.maxRuntimeHours then .ok (some inst)
       else .ok none) := by
    simp [checkInstanceRuntime, checkRuntimeLoop, hm, hl]
  by_cases hc : durationHours (now - lt) > tgt.maxRuntimeHours
  · exact ⟨by simp [hbase, hc], fun hle => absurd hc (not_lt.mpr hle)⟩
  · exact ⟨by simp [hbase, hc], fun _ => by simp [hbase, hc]⟩

/-- Witness for C6: with a 24-hour threshold, an instance exactly 24 hours old
(86400000000000 ns) is not a violation, and one a single nanosecond older is. -/
theorem c6_strict_runtime_threshold_witness :
    checkInstanceRuntime 86400000000000 [Target.mk "" "" [] 24]
        (Instance.mk (some "i-6") "t3.micro" (some 0) []) = .ok none ∧
    checkInstanceRuntime 86400000000001 [Target.mk "" "" [] 24]
        (Instance.mk (some "i-6") "t3.micro" (some 0) []) =
      .ok (some (Instance.mk (some "i-6") "t3.micro" (some 0) [])) :=
  ⟨(c6_strict_runtime_threshold 86400000000000 0
      (Instance.mk (some "i-6") "t3.micro" (some 0) [])
      (Target.mk "" "" [] 24) rfl (by decide)).2 (by norm_num [durationHours]),
   (c6_strict_runtime_threshold 86400000000001 0
      (Instance.mk (some "i-6") "t3.micro" (some 0) [])
      (Target.mk "" "" [] 24) rfl (by decide)).1.mpr (by norm_num [durationHours])⟩

set_option maxRecDepth 4000 in
/-- C4, counterexample: the claim says the returned report lists every
violation as "would terminate" in dry-run.  At this concrete input (one
violation, dry-run) processInstances performs no TerminateInstances call and
the returned report is only the header and the instance line; the rendered
report text contains no "would terminate" entry (the marker is emitted only
as the DRY RUN log line). -/
theorem c4_counterexample :
    processInstances 90000000000000 true (fun _ => none)
        [Instance.mk (some "i-1") "t2.micro" (some 0) []] =
      .ok ([ReportEntry.header 1, ReportEntry.instanceLine "i-1" "t2.micro" 25], [],
           [LogEntry.foundLongRunning "i-1", LogEntry.dryRunWouldTerminate "i-1"]) ∧
    ¬ ("would terminate".toList <:+:
        (renderReport
          [ReportEntry.header 1, ReportEntry.instanceLine "i-1" "t2.micro" 25]).toList) := by
  have h25 : durationHours 90000000000000 = 25 := by norm_num [durationHours]
  have hf : format2f 25 = "25.00" := by
    norm_num [format2f, round_eq]
    rfl
  constructor
  · simp [processInstances, processLoop, processOneInstance, h25]
  · have hrender : renderReport
        [ReportEntry.header 1, ReportEntry.instanceLine "i-1" "t2.micro" 25] =
        "Found 1 long-running instances:\n- ID: i-1, Type: t2.micro, Runtime: 25.00 hours\n" := by
      simp only [renderReport, renderEntry, hf, List.map_cons, List.map_nil]
      rfl
    rw [hrender]
    decide

/-- C4, amended: for every violation set whose instances have non-nil ids and
launch times, dry-run processInstances performs no TerminateInstances call;
the returned report is the header plus one line per violation in discovery
order, and a DRY RUN "would terminate" log line is emitted per violation —
the "would terminate" marker goes to the log, not the returned report. -/
theorem c4_dry_run_never_terminates :
    ∀ (now : Int) (termErr : String → Option String) (insts : List Instance),
      (∀ i ∈ insts, i.instanceId.isSome = true ∧ i.launchTime.isSome = true) →
      processInstances now true termErr insts =
        .ok (ReportEntry.header insts.length ::
              insts.map (fun i => ReportEntry.instanceLine (i.instanceId.getD "")
                i.instanceType (durationHours (now - i.launchTime.getD 0))),
             [],
             (insts.map fun i =>
               [LogEntry.foundLongRunning (i.instanceId.getD ""),
                LogEntry.dryRunWouldTerminate (i.instanceId.getD "")]).flatten) := by
  intro now termErr insts h
  simp [processInstances, processLoop_dry now termErr insts h]

/-- Witness for the amended C4 at two concrete violations, with an oracle that
would fail every termination call — which is never consulted. -/
theorem c4_dry_run_never_terminates_witness :
    processInstances 7200000000000000 true (fun _ => some "never called")
        [Instance.mk (some "i-4") "m5.large" (some 0) [],
         Instance.mk (some "i-5") "m5.large" (some 3600000000000) []] =
      .ok (ReportEntry.header
              ([Instance.mk (some "i-4") "m5.large" (some 0) [],
                Instance.mk (some "i-5") "m5.large" (some 3600000000000) []] :
                List Instance).length ::
            ([Instance.mk (some "i-4") "m5.large" (some 0) [],
              Instance.mk (some "i-5") "m5.large" (some 3600000000000) []] :
              List Instance).map
              (fun i => ReportEntry.instanceLine (i.instanceId.getD "") i.instanceType
                (durationHours (7200000000000000 - i.launchTime.getD 0))),
           [],
           (([Instance.mk (some "i-4") "m5.large" (some 0) [],
              Instance.mk (some "i-5") "m5.large" (some 3600000000000) []] :
              List Instance).map fun i =>
             [LogEntry.foundLongRunning (i.instanceId.getD ""),
              LogEntry.dryRunWouldTerminate (i.instanceId.getD "")]).flatten) :=
  c4_dry_run_never_terminates 7200000000000000 (fun _ => some "never called")
    [Instance.mk (some "i-4") "m5.large" (some 0) [],
     Instance.mk (some "i-5") "m5.large" (some 3600000000000) []] (by decide)

/-- C5: partial-failure isolation.  With dry-run off, every violation's
termination is attempted (the TerminateInstances call list is exactly the id
list, in discovery order), each outcome — failure with its reason, or
success — is appended to the report right after that violation's line, and a
failure for one instance never stops the processing of the rest. -/
theorem c5_partial_failure_isolation :
    ∀ (now : Int) (termErr : String → Option String) (insts : List Instance),
      (∀ i ∈ insts, i.instanceId.isSome = true ∧ i.launchTime.isSome = true) →
      processInstances now false termErr insts =
        .ok (ReportEntry.header insts.length ::
              (insts.map fun i =>
                ReportEntry.instanceLine (i.instanceId.getD "") i.instanceType
                    (durationHours (now - i.launchTime.getD 0)) ::
                  (match termErr (i.instanceId.getD "") with
                   | some err => [ReportEntry.termFailure (i.instanceId.getD "") err]
                   | none => [ReportEntry.termSuccess (i.instanceId.getD "")])).flatten,
             insts.map (fun i => i.instanceId.getD ""),
             (insts.map fun i =>
                LogEntry.foundLongRunning (i.instanceId.getD "") ::
                  LogEntry.terminating (i.instanceId.getD "") ::
                  (match termErr (i.instanceId.getD "") with
                   | some _ => [LogEntry.terminateFailed (i.instanceId.getD "")]
                   | none => [LogEntry.terminateSucceeded (i.instanceId.getD "")])).flatten) := by
  intro now termErr insts h
  simp [processInstances, processLoop_live now termErr insts h]

/-- Witness for C5: three violations with exactly the second termination call
failing — all three are attempted (calls ["i-a","i-b","i-c"] in order), and
the report holds exactly one failure entry and two success entries. -/
theorem c5_partial_failure_isolation_witness :
    processInstances 90000000000000 false c5termErr c5insts =
      .ok (c5entries, c5insts.map (fun i => i.instanceId.getD ""), c5logs) ∧
    c5entries.countP
        (fun e => match e with | ReportEntry.termFailure _ _ => true | _ => false) = 1 ∧
    c5entries.countP
        (fun e => match e with | ReportEntry.termSuccess _ => true | _ => false) = 2 ∧
    c5insts.map (fun i => i.instanceId.getD "") = ["i-a", "i-b", "i-c"] :=
  ⟨c5_partial_failure_isolation 90000000000000 c5termErr c5insts (by decide),
   by decide, by decide, by decide⟩

/-- C7: retrieval-failure atomicity.  If any page of the paginated retrieval
fails (and the instances on the pages before it evaluate without a panic),
the whole cycle returns normally (no panic) with the retrieval error logged:
the instances aggregated from the earlier pages are discarded, no
TerminateInstances call is made, no notification is published, and the report
is empty — so the cycle is a no-op and the next scheduled tick is unaffected. -/
theorem c7_retrieval_failure_aborts_cycle :
    ∀ (now : Int) (cfg : Config) (termErr : String → Option String)
      (ps1 ps2 : List PageResult),
      (∀ p ∈ ps1, pageNoPanic now cfg.targets p = true) →
      runCheck now cfg (ps1 ++ .error () :: ps2) termErr =
        .ok (CycleResult.mk [] true [] [] [] false) := by
  intro now cfg termErr ps1 ps2 h
  have hf : findLongRunningInstances now cfg (ps1 ++ .error () :: ps2) = .ok ([], true) :=
    findLoop_abort now cfg.targets ps2 ps1 [] h
  simp [runCheck, hf]

/-- Witness for C7: the first page holds an instance (which does not match the
policy), the second page fails, a third page would hold another instance; the
cycle ends with nothing found, no calls, no notification. -/
theorem c7_retrieval_failure_aborts_cycle_witness :
    runCheck 1000 (Config.mk [Target.mk "t2.micro" "" [] 24] "" false "arn:topic")
        ([Except.ok [[Instance.mk (some "i-7") "t3.nano" (some 0) []]]] ++
          Except.error () ::
            [Except.ok [[Instance.mk (some "i-7b") "t3.nano" (some 0) []]]])
        (fun _ => none) =
      .ok (CycleResult.mk [] true [] [] [] false) :=
  c7_retrieval_failure_aborts_cycle 1000
    (Config.mk [Target.mk "t2.micro" "" [] 24] "" false "arn:topic") (fun _ => none)
    [Except.ok [[Instance.mk (some "i-7") "t3.nano" (some 0) []]]]
    [Except.ok [[Instance.mk (some "i-7b") "t3.nano" (some 0) []]]] (by decide)

/-- C10: a tag requirement `(k, "")` is satisfied both by an instance that
lacks the key `k` entirely and by one carrying `k` with the empty value —
the Go map lookup of a missing key yields "", so the tag check cannot
distinguish the two shapes: adding the tag `(k, "")` to an instance that
lacks `k` leaves the tag check's verdict unchanged for every requirement
set. -/
theorem c10_empty_tag_value_indistinguishable :
    ∀ (itags : List Tag) (reqs : List (String × String)) (k : String),
      (∀ t ∈ itags, t.key ≠ some k) →
      (tagsSatisfied itags [(k, "")] = true ∧
       tagsSatisfied (itags ++ [Tag.mk (some k) (some "")]) [(k, "")] = true ∧
       tagsSatisfied (itags ++ [Tag.mk (some k) (some "")]) reqs =
         tagsSatisfied itags reqs) := by
  intro itags reqs k h
  have habs : buildInstanceTags itags k = "" := buildInstanceTags_absent itags k h
  have happ := buildInstanceTags_append_single itags k ""
  have hfun : buildInstanceTags (itags ++ [Tag.mk (some k) (some "")]) =
      buildInstanceTags itags := by
    funext x
    simp only [happ]
    by_cases hx : x = k
    · rw [if_pos hx, hx, habs]
    · rw [if_neg hx]
  refine ⟨?_, ?_, ?_⟩
  · simp [tagsSatisfied, habs]
  · simp [tagsSatisfied, hfun, habs]
  · rw [tagsSatisfied, tagsSatisfied, hfun]

/-- Witness for C10: the requirement `Team = ""` accepts an instance with only
an Env tag, and likewise after that instance additionally carries `Team` with
the empty value; the verdict on an unrelated requirement is also unchanged. -/
theorem c10_empty_tag_value_indistinguishable_witness :
    tagsSatisfied [Tag.mk (some "Env") (some "dev")] [("Team", "")] = true ∧
    tagsSatisfied ([Tag.mk (some "Env") (some "dev")] ++ [Tag.mk (some "Team") (some "")])
        [("Team", "")] = true ∧
    tagsSatisfied ([Tag.mk (some "Env") (some "dev")] ++ [Tag.mk (some "Team") (some "")])
        [("Env", "dev")] =
      tagsSatisfied [Tag.mk (some "Env") (some "dev")] [("Env", "dev")] :=
  c10_empty_tag_value_indistinguishable [Tag.mk (some "Env") (some "dev")]
    [("Env", "dev")] "Team" (by decide)

/-- C2, counterexample: with one policy typed "t2.micro" and one with an
empty instanceTypeFilter, the claim requires the type clause to be omitted;
buildFilters nonetheless emits an instance-type clause restricted to
"t2.micro".  An instance of type "t3.large" matches the second (empty-type)
policy, yet its type is not among the clause's values — the provider-side
filter under-approximates the match set. -/
theorem c2_counterexample :
    (∃ t ∈ (Config.mk [Target.mk "t2.micro" "" [] 24, Target.mk "" "" [] 48]
        "" true "").targets, t.instanceType = "") ∧
    Filter.mk "instance-type" ["t2.micro"] ∈
      buildFilters (Config.mk [Target.mk "t2.micro" "" [] 24, Target.mk "" "" [] 48]
        "" true "") ∧
    matchesTarget (Instance.mk (some "i-2") "t3.large" (some 0) [])
      (Target.mk "" "" [] 48) = true ∧
    "t3.large" ∉ ["t2.micro"] := by
  refine ⟨⟨Target.mk "" "" [] 48, ?_, rfl⟩, ?_, rfl, ?_⟩
  · exact List.mem_cons_of_mem _ (List.mem_cons_self _ _)
  · decide
  · decide

/-- C2, amended: buildFilters emits an instance-type clause exactly when at
least one policy has a non-empty instanceTypeFilter (not: when all do), and
that clause lists exactly the non-empty instanceTypeFilter values in policy
order; so when policies mix empty and non-empty type filters the clause is
still emitted and the provider-side filter can under-approximate the match
set. -/
theorem c2_type_clause_iff_some_nonempty :
    ∀ cfg : Config,
      ((∃ f ∈ buildFilters cfg, f.name = "instance-type") ↔
        ∃ t ∈ cfg.targets, t.instanceType ≠ "") ∧
      (∀ f ∈ buildFilters cfg, f.name = "instance-type" →
        f.values = (cfg.targets.map Target.instanceType).filter (fun s => s != "")) := by
  intro cfg
  have hcol := collectInstanceTypes_eq cfg.targets
  have hex : (∃ t ∈ cfg.targets, t.instanceType ≠ "") ↔
      collectInstanceTypes cfg.targets ≠ [] := by
    rw [hcol]
    constructor
    · rintro ⟨t, ht, hne⟩ hnil
      rw [List.filter_eq_nil_iff] at hnil
      exact hnil _ (List.mem_map_of_mem _ ht) (bne_iff_ne.mpr hne)
    · intro hne
      by_contra hno
      push_neg at hno
      apply hne
      rw [List.filter_eq_nil_iff]
      intro a ha
      obtain ⟨t, ht, rfl⟩ := List.mem_map.mp ha
      simp [hno t ht]
  constructor
  · rw [hex]
    constructor
    · rintro ⟨f, hf, hname⟩
      exact (buildFilters_type_values cfg f hf hname).1
    · intro hne
      exact ⟨Filter.mk "instance-type" (collectInstanceTypes cfg.targets),
        buildFilters_has_type_clause cfg (List.length_pos.mpr hne), rfl⟩
  · intro f hf hname
    rw [(buildFilters_type_values cfg f hf hname).2, hcol]

/-- Witness for the amended C2: with two non-empty-typed policies a clause
named "instance-type" is present, and its values are the two types in order. -/
theorem c2_type_clause_iff_some_nonempty_witness :
    (∃ f ∈ buildFilters (Config.mk [Target.mk "t2.micro" "" [] 24,
        Target.mk "t3.small" "" [] 48] "vpc-1" true "a"), f.name = "instance-type") ∧
    (Filter.mk "instance-type" ["t2.micro", "t3.small"] : Filter).values =
      (((Config.mk [Target.mk "t2.micro" "" [] 24, Target.mk "t3.small" "" [] 48]
          "vpc-1" true "a").targets.map Target.instanceType).filter (fun s => s != "")) :=
  ⟨(c2_type_clause_iff_some_nonempty (Config.mk [Target.mk "t2.micro" "" [] 24,
        Target.mk "t3.small" "" [] 48] "vpc-1" true "a")).1.mpr
      ⟨Target.mk "t2.micro" "" [] 24, List.mem_cons_self _ _, by decide⟩,
   (c2_type_clause_iff_some_nonempty (Config.mk [Target.mk "t2.micro" "" [] 24,
        Target.mk "t3.small" "" [] 48] "vpc-1" true "a")).2
      (Filter.mk "instance-type" ["t2.micro", "t3.small"]) (by decide) rfl⟩

/-- C9, counterexample: the claim says no wildcard other than `*` has special
meaning in namePattern matching.  The code calls filepath.Match, where `?`
matches any single character: the policy pattern "dev-?" matches the instance
named "dev-1", while under the claim's star-only glob semantics (specGlobMatch,
modelled from the spec's words) "dev-?" does not match "dev-1". -/
theorem c9_counterexample :
    matchesTarget
        (Instance.mk (some "i-9") "t2.micro" (some 0)
          [Tag.mk (some "Name") (some "dev-1")])
        (Target.mk "" "dev-?" [] 24) = true ∧
    specGlobMatch "dev-?" "dev-1" = false := by
  constructor
  · rfl
  · rfl

/-- C9, amended: with a non-empty namePattern, matchesTarget succeeds exactly
when the instance passes the type check, filepath.Match accepts the pattern
against the instance's display name (the "Name" tag value, or "" when absent)
— a malformed pattern or a non-match fails — and the tag conjunction holds.
The glob semantics is Go's filepath.Match: `*` matches any run of characters
other than `/`, and additionally `?` matches any single character and `[...]`
character classes are wildcards.  Pattern "dev-*" matches "dev-instance-01"
and rejects "prod-instance-01". -/
theorem c9_name_pattern_uses_filepath_match :
    ∀ (inst : Instance) (tgt : Target), tgt.name ≠ "" →
      ((matchesTarget inst tgt = true ↔
          ((tgt.instanceType = "" ∨ inst.instanceType = tgt.instanceType) ∧
           filepathMatch tgt.name (getInstanceName inst) = .ok true ∧
           tagsSatisfied inst.tags tgt.tags = true)) ∧
        filepathMatch "dev-*" "dev-instance-01" = .ok true ∧
        filepathMatch "dev-*" "prod-instance-01" = .ok false ∧
        filepathMatch "dev-?" "dev-X" = .ok true ∧
        filepathMatch "dev-[ab]" "dev-a" = .ok true ∧
        filepathMatch "dev-*" "dev/x" = .ok false) := by
  intro inst tgt hname
  refine ⟨?_, rfl, rfl, rfl, rfl, rfl⟩
  have hn : (tgt.name != "") = true := bne_iff_ne.mpr hname
  unfold matchesTarget
  by_cases hty : (tgt.instanceType != "" && inst.instanceType != tgt.instanceType) = true
  · rw [if_pos hty]
    simp only [Bool.and_eq_true, bne_iff_ne] at hty
    constructor
    · intro hfalse
      cases hfalse
    · rintro ⟨hor, _, _⟩
      rcases hor with h0 | h0
      · exact absurd h0 hty.1
      · exact absurd h0 hty.2
  · rw [if_neg hty]
    have hor : tgt.instanceType = "" ∨ inst.instanceType = tgt.instanceType := by
      by_contra hc
      push_neg at hc
      exact hty (by simp [bne_iff_ne, hc.1, hc.2])
    rcases hm : filepathMatch tgt.name (getInstanceName inst) with u | m
    · simp [hn, hor]
    · cases m with
      | false => simp [hn, hor]
      | true => simp [hn, hor]

/-- Witness for the amended C9: an instance named "dev-instance-01" with a
matching type satisfies a policy whose namePattern is "dev-*". -/
theorem c9_name_pattern_uses_filepath_match_witness :
    matchesTarget
        (Instance.mk (some "i-9w") "t2.micro" (some 0)
          [Tag.mk (some "Name") (some "dev-instance-01")])
        (Target.mk "" "dev-*" [] 24) = true :=
  ((c9_name_pattern_uses_filepath_match
      (Instance.mk (some "i-9w") "t2.micro" (some 0)
        [Tag.mk (some "Name") (some "dev-instance-01")])
      (Target.mk "" "dev-*" [] 24) (by decide)).1).mpr
    ⟨Or.inl rfl, rfl, rfl⟩

end EC2Checker
